import Mathlib

/-
Verification development for the bwiseth network topology builder
(`__main__.py`).  The script has two parts:

* `get_subnet_cidr`, a CIDR helper built on Python's `ipaddress` module
  (`IPv4Network`, `.subnets(new_prefix=24)`, `str`, list indexing);
* `create_vpc_environment`, which declares a fixed set of cloud resources
  (VPC, subnets, gateways, route tables, routes, security groups) and
  exports identifiers, and is invoked once for "bwiseth_dev" and once for
  "bwiseth_prod".

The embedding below models the CIDR arithmetic exactly (including Python's
strict network parsing and Python's negative-index list semantics) and
models the resource declarations as a list of declaration records built in
program order, with errors surfacing where Python would raise them.
-/

set_option maxRecDepth 8000

/-- Error kinds observable from the script.  `valueError` and `indexError`
are the Python builtin exceptions the code can actually raise
(`ValueError` from `ipaddress` parsing, `IndexError` from list indexing);
`allocationError` and `capacityError` are the error kinds named by the
design document's taxonomy — no such exception classes exist anywhere in
the source. -/
inductive PyError where
  | valueError
  | indexError
  | allocationError
  | capacityError
deriving DecidableEq

/-- An IPv4 network: numeric 32-bit network address plus prefix length,
mirroring `ipaddress.IPv4Network`. -/
structure Net where
  addr : Nat
  plen : Nat
deriving DecidableEq

/-- Split a character list at every occurrence of `c` (like
`str.split(c)` in Python: `n` separators give `n+1` parts). -/
def splitOnC (c : Char) : List Char → List (List Char)
  | [] => [[]]
  | x :: xs =>
    match splitOnC c xs with
    | [] => if x = c then [[], []] else [[x]]
    | y :: ys => if x = c then [] :: y :: ys else (x :: y) :: ys

/-- Numeric value of a decimal digit string (callers check digits first). -/
def digitsToNat (l : List Char) : Nat :=
  l.foldl (fun acc c => acc * 10 + (c.toNat - 48)) 0

/-- Parse one dotted-quad octet with CPython `ipaddress` rules: ASCII
digits only, at most 3 characters, no leading zeros, value at most 255. -/
def parseOctet (l : List Char) : Option Nat :=
  if l.isEmpty || !(l.all Char.isDigit) || decide (l.length > 3) then none
  else if decide (l.length > 1) && (l.head? == some '0') then none
  else if digitsToNat l ≤ 255 then some (digitsToNat l) else none

/-- Parse a dotted-quad IPv4 address into its 32-bit numeric value
(CPython `_ip_int_from_string`: exactly four octets). -/
def parseAddr (l : List Char) : Option Nat :=
  match splitOnC '.' l with
  | [o1, o2, o3, o4] =>
    match parseOctet o1, parseOctet o2, parseOctet o3, parseOctet o4 with
    | some a, some b, some c, some d =>
      some (a * 16777216 + b * 65536 + c * 256 + d)
    | _, _, _, _ => none
  | _ => none

/-- Recover a prefix length from a dotted-decimal mask the way CPython's
`_prefix_from_ip_string` does: first try it as a netmask (ones then
zeros), then as a hostmask (zeros then ones). -/
def maskToPlen (m : Nat) : Option Nat :=
  match (List.range 33).find? (fun p => m == 2 ^ 32 - 2 ^ (32 - p)) with
  | some p => some p
  | none => (List.range 33).find? (fun p => m == 2 ^ (32 - p) - 1)

/-- Parse the part after the slash: a decimal prefix length `0..32`, or a
dotted-decimal netmask/hostmask (CPython `_make_netmask` for string
arguments). -/
def parsePlen (l : List Char) : Option Nat :=
  if !l.isEmpty && l.all Char.isDigit then
    if digitsToNat l ≤ 32 then some (digitsToNat l) else none
  else
    match parseAddr l with
    | some m => maskToPlen m
    | none => none

/-- Parse a CIDR string as `ipaddress.IPv4Network(s)` does with its
default `strict=True`: at most one slash, a missing prefix means `/32`,
and host bits must be zero.  `none` models a raised `ValueError`. -/
def parseIPv4Network (s : String) : Option Net :=
  match splitOnC '/' s.data with
  | [aL] =>
    match parseAddr aL with
    | some a => some ⟨a, 32⟩
    | none => none
  | [aL, pL] =>
    match parseAddr aL, parsePlen pL with
    | some a, some p => if a % 2 ^ (32 - p) = 0 then some ⟨a, p⟩ else none
    | _, _ => none
  | _ => none

/-- Model of `list(network.subnets(new_prefix=24))`: a `/32` network
yields itself; a prefix longer than 24 raises `ValueError` ("new prefix
must be longer"); otherwise the `2^(24-plen)` consecutive `/24` blocks. -/
def subnetsOf (n : Net) : Except PyError (List Net) :=
  if n.plen = 32 then .ok [n]
  else if 24 < n.plen then .error .valueError
  else .ok ((List.range (2 ^ (24 - n.plen))).map (fun i => ⟨n.addr + i * 256, 24⟩))

/-- Python list indexing: negative indices count from the end, anything
out of range raises `IndexError`. -/
def pyIndex {α : Type} (l : List α) (i : Int) : Except PyError α :=
  let j : Int := if i < 0 then i + l.length else i
  if j < 0 then .error .indexError
  else
    match l[j.toNat]? with
    | some x => .ok x
    | none => .error .indexError

/-- Decimal rendering of one octet group of a 32-bit address. -/
def dotted (a : Nat) : String :=
  toString (a / 16777216 % 256) ++ "." ++ toString (a / 65536 % 256) ++ "."
    ++ toString (a / 256 % 256) ++ "." ++ toString (a % 256)

/-- Rendering of `str(network)`: dotted network address, slash, prefix. -/
def netStr (n : Net) : String :=
  dotted n.addr ++ "/" ++ toString n.plen

/-- Model of the script's helper

    def get_subnet_cidr(vpc_cidr, subnet_offset):
        network = ipaddress.IPv4Network(vpc_cidr)
        subnet = network.subnets(new_prefix=24)
        return str(list(subnet)[subnet_offset])

Exceptions become `Except.error`: `ValueError` from parsing or from
`subnets`, `IndexError` from the list indexing. -/
def get_subnet_cidr (vpc_cidr : String) (subnet_offset : Int) : Except PyError String :=
  match parseIPv4Network vpc_cidr with
  | none => .error .valueError
  | some network =>
    match subnetsOf network with
    | .error e => .error e
    | .ok l =>
      match pyIndex l subnet_offset with
      | .error e => .error e
      | .ok s => .ok (netStr s)

/-- Address-set semantics of a network: the 32-bit addresses it covers. -/
def netMem (x : Nat) (n : Net) : Prop :=
  n.addr ≤ x ∧ x < n.addr + 2 ^ (32 - n.plen)

/-- Behavior of Python list indexing at a non-negative in-range index. -/
theorem pyIndex_ok {α : Type} (l : List α) (i : Int)
    (h1 : 0 ≤ i) (h2 : i < (l.length : Int)) :
    pyIndex l i = .ok (l.get ⟨i.toNat, by omega⟩) := by
  have h' : ¬ i < 0 := by omega
  unfold pyIndex
  rw [if_neg h', if_neg h']
  rw [List.getElem?_eq_getElem (show i.toNat < l.length by omega)]
  rfl

/-- Behavior of Python list indexing at a negative in-range index: it
counts from the end of the list. -/
theorem pyIndex_neg {α : Type} (l : List α) (i : Int)
    (h1 : -(l.length : Int) ≤ i) (h2 : i < 0) :
    pyIndex l i = .ok (l.get ⟨(i + l.length).toNat, by omega⟩) := by
  unfold pyIndex
  rw [if_pos h2]
  rw [if_neg (show ¬ i + (l.length : Int) < 0 by omega)]
  rw [List.getElem?_eq_getElem (show (i + (l.length : Int)).toNat < l.length by omega)]
  rfl

/-- Behavior of Python list indexing out of range: `IndexError`. -/
theorem pyIndex_oob {α : Type} (l : List α) (i : Int)
    (h : (l.length : Int) ≤ i ∨ i < -(l.length : Int)) :
    pyIndex l i = .error .indexError := by
  unfold pyIndex
  rcases h with h | h
  · have h' : ¬ i < 0 := by omega
    rw [if_neg h', if_neg h']
    rw [List.getElem?_eq_none (show l.length ≤ i.toNat by omega)]
  · rw [if_pos (show i < 0 by omega)]
    rw [if_pos (show i + (l.length : Int) < 0 by omega)]

/-- Characterization of `get_subnet_cidr` at a non-negative in-range
offset: it returns the `k`-th consecutive `/24` block of the base. -/
theorem get_subnet_cidr_ok (cidr : String) (n : Net)
    (h : parseIPv4Network cidr = some n) (hp : n.plen ≤ 24) (k : Int)
    (hk0 : 0 ≤ k) (hk : k < ((2 ^ (24 - n.plen) : Nat) : Int)) :
    get_subnet_cidr cidr k = .ok (netStr ⟨n.addr + k.toNat * 256, 24⟩) := by
  unfold get_subnet_cidr
  rw [h]
  dsimp only
  unfold subnetsOf
  rw [if_neg (by omega : ¬ n.plen = 32), if_neg (by omega : ¬ 24 < n.plen)]
  dsimp only
  rw [pyIndex_ok _ k hk0 (by simp only [List.length_map, List.length_range]; omega)]
  simp [List.get_eq_getElem, List.getElem_map, List.getElem_range]

/-- Characterization of `get_subnet_cidr` at a negative in-range offset:
Python indexes from the end of the enumeration. -/
theorem get_subnet_cidr_neg (cidr : String) (n : Net)
    (h : parseIPv4Network cidr = some n) (hp : n.plen ≤ 24) (k : Int)
    (hk0 : -((2 ^ (24 - n.plen) : Nat) : Int) ≤ k) (hk : k < 0) :
    get_subnet_cidr cidr k =
      .ok (netStr ⟨n.addr + (k + ((2 ^ (24 - n.plen) : Nat) : Int)).toNat * 256, 24⟩) := by
  unfold get_subnet_cidr
  rw [h]
  dsimp only
  unfold subnetsOf
  rw [if_neg (by omega : ¬ n.plen = 32), if_neg (by omega : ¬ 24 < n.plen)]
  dsimp only
  rw [pyIndex_neg _ k (by simp only [List.length_map, List.length_range]; omega) hk]
  simp [List.get_eq_getElem, List.getElem_map, List.getElem_range]

/-- Characterization of `get_subnet_cidr` at an out-of-range offset: the
list indexing raises `IndexError`. -/
theorem get_subnet_cidr_oob (cidr : String) (n : Net)
    (h : parseIPv4Network cidr = some n) (hp : n.plen ≤ 24) (k : Int)
    (hk : ((2 ^ (24 - n.plen) : Nat) : Int) ≤ k ∨ k < -((2 ^ (24 - n.plen) : Nat) : Int)) :
    get_subnet_cidr cidr k = .error .indexError := by
  unfold get_subnet_cidr
  rw [h]
  dsimp only
  unfold subnetsOf
  rw [if_neg (by omega : ¬ n.plen = 32), if_neg (by omega : ¬ 24 < n.plen)]
  dsimp only
  rw [pyIndex_oob _ k (by simp only [List.length_map, List.length_range]; omega)]

/-- Failure of `get_subnet_cidr` on an unparsable base block: `ValueError`. -/
theorem get_subnet_cidr_badParse (cidr : String) (k : Int)
    (h : parseIPv4Network cidr = none) :
    get_subnet_cidr cidr k = .error .valueError := by
  unfold get_subnet_cidr
  rw [h]
deriving instance DecidableEq for Except

/-- C1: for every fixed base block the CIDR allocator is deterministic and
index-stable — equal base block and offset give an equal subnet (the
helper is a pure function of its two arguments) — and in particular
offset 1 of 10.0.0.0/16 is 10.0.1.0/24 and offset 4 is 10.0.4.0/24. -/
theorem c1_allocator_deterministic_index_stable :
    (∀ (base : String) (k : Int), get_subnet_cidr base k = get_subnet_cidr base k)
    ∧ get_subnet_cidr ("10.0.0.0/16") 1 = .ok ("10.0.1.0/24")
    ∧ get_subnet_cidr ("10.0.0.0/16") 4 = .ok ("10.0.4.0/24") :=
  ⟨fun _ _ => rfl, rfl, rfl⟩

/-- C2: for every valid /16 base block, the subnets the allocator returns
at offsets 1..4 are the blocks at addresses base+k·256 with prefix 24;
these are pairwise disjoint as address sets and each is contained in the
base block's address range. -/
theorem c2_offsets_disjoint_and_contained (cidr : String) (a : Nat)
    (h : parseIPv4Network cidr = some ⟨a, 16⟩) :
    (∀ k : Int, 1 ≤ k → k ≤ 4 →
      get_subnet_cidr cidr k = .ok (netStr ⟨a + k.toNat * 256, 24⟩))
    ∧ (∀ i j : Int, 1 ≤ i → i ≤ 4 → 1 ≤ j → j ≤ 4 → i ≠ j →
        ∀ x : Nat, netMem x ⟨a + i.toNat * 256, 24⟩ → ¬ netMem x ⟨a + j.toNat * 256, 24⟩)
    ∧ (∀ k : Int, 1 ≤ k → k ≤ 4 →
        ∀ x : Nat, netMem x ⟨a + k.toNat * 256, 24⟩ → netMem x ⟨a, 16⟩) := by
  refine ⟨?_, ?_, ?_⟩
  · intro k h1 h2
    exact get_subnet_cidr_ok cidr ⟨a, 16⟩ h (by norm_num) k (by omega)
      (by show k < ((256 : Nat) : Int); omega)
  · intro i j h1 h2 h3 h4 hne x hx hx'
    simp only [netMem] at hx hx'
    omega
  · intro k h1 h2 x hx
    simp only [netMem] at hx ⊢
    omega

/-- C2 witness at the concrete base block 10.0.0.0/16. -/
theorem c2_offsets_disjoint_and_contained_witness :
    (∀ k : Int, 1 ≤ k → k ≤ 4 →
      get_subnet_cidr ("10.0.0.0/16") k = .ok (netStr ⟨167772160 + k.toNat * 256, 24⟩))
    ∧ (∀ i j : Int, 1 ≤ i → i ≤ 4 → 1 ≤ j → j ≤ 4 → i ≠ j →
        ∀ x : Nat, netMem x ⟨167772160 + i.toNat * 256, 24⟩ →
          ¬ netMem x ⟨167772160 + j.toNat * 256, 24⟩)
    ∧ (∀ k : Int, 1 ≤ k → k ≤ 4 →
        ∀ x : Nat, netMem x ⟨167772160 + k.toNat * 256, 24⟩ → netMem x ⟨167772160, 16⟩) :=
  c2_offsets_disjoint_and_contained ("10.0.0.0/16") 167772160 (by decide)

/-- C3 counterexample: the allocator fails with the Python builtin
`IndexError` on an out-of-range offset and with `ValueError` on a
malformed base block — not with an `AllocationError`, which exists only
in the design document. -/
theorem c3_counterexample_builtin_errors :
    get_subnet_cidr ("10.0.0.0/16") 256 = .error .indexError
    ∧ get_subnet_cidr ("not-a-cidr") 1 = .error .valueError
    ∧ (Except.error PyError.indexError : Except PyError String) ≠ .error .allocationError
    ∧ (Except.error PyError.valueError : Except PyError String) ≠ .error .allocationError :=
  ⟨rfl, rfl, by decide, by decide⟩

/-- C3 (amended): the allocator fails with `ValueError` whenever the base
block is malformed, and with `IndexError` whenever the base parses (with
a prefix of at most 24) and the offset is out of range of the derivable
subnet enumeration; no other outcome occurs in those cases. -/
theorem c3_amended_failure_kinds (cidr : String) (k : Int) :
    (parseIPv4Network cidr = none → get_subnet_cidr cidr k = .error .valueError)
    ∧ (∀ n : Net, parseIPv4Network cidr = some n → n.plen ≤ 24 →
        (((2 ^ (24 - n.plen) : Nat) : Int) ≤ k ∨ k < -((2 ^ (24 - n.plen) : Nat) : Int)) →
        get_subnet_cidr cidr k = .error .indexError) := by
  constructor
  · exact get_subnet_cidr_badParse cidr k
  · intro n hn hp hk
    exact get_subnet_cidr_oob cidr n hn hp k hk

/-- C3 witness: the amended claim applied to a malformed block and to an
out-of-range offset of 10.0.0.0/16. -/
theorem c3_amended_failure_kinds_witness :
    get_subnet_cidr ("not-a-cidr") 7 = .error .valueError
    ∧ get_subnet_cidr ("10.0.0.0/16") 256 = .error .indexError := by
  constructor
  · exact (c3_amended_failure_kinds ("not-a-cidr") 7).1 (by decide)
  · exact (c3_amended_failure_kinds ("10.0.0.0/16") 256).2 ⟨167772160, 16⟩
      (by decide) (by decide) (by decide)

/-- C10: for every valid base block (prefix at most 24), a negative
offset within the enumeration size does not fail — Python indexes from
the end — offset -1 returns the last /24 subnet, and an out-of-range
failure happens exactly when the offset is at least the subnet count or
less than its negation. -/
theorem c10_negative_offsets_index_from_end (cidr : String) (n : Net)
    (h : parseIPv4Network cidr = some n) (hp : n.plen ≤ 24) :
    (∀ k : Int, -((2 ^ (24 - n.plen) : Nat) : Int) ≤ k → k < 0 →
      get_subnet_cidr cidr k =
        .ok (netStr ⟨n.addr + (k + ((2 ^ (24 - n.plen) : Nat) : Int)).toNat * 256, 24⟩))
    ∧ get_subnet_cidr cidr (-1) =
        .ok (netStr ⟨n.addr + (2 ^ (24 - n.plen) - 1) * 256, 24⟩)
    ∧ (∀ k : Int, get_subnet_cidr cidr k = .error .indexError ↔
        (((2 ^ (24 - n.plen) : Nat) : Int) ≤ k ∨ k < -((2 ^ (24 - n.plen) : Nat) : Int))) := by
  have hone : 1 ≤ 2 ^ (24 - n.plen) := Nat.one_le_two_pow
  refine ⟨?_, ?_, ?_⟩
  · intro k h1 h2
    exact get_subnet_cidr_neg cidr n h hp k h1 h2
  · have hres := get_subnet_cidr_neg cidr n h hp (-1) (by omega) (by omega)
    have harg : ((-1 : Int) + ((2 ^ (24 - n.plen) : Nat) : Int)).toNat =
        2 ^ (24 - n.plen) - 1 := by omega
    rw [hres, harg]
  · intro k
    constructor
    · intro hk
      by_contra hcon
      push_neg at hcon
      obtain ⟨hlt, hge⟩ := hcon
      by_cases hk0 : 0 ≤ k
      · rw [get_subnet_cidr_ok cidr n h hp k hk0 hlt] at hk
        exact Except.noConfusion hk
      · rw [get_subnet_cidr_neg cidr n h hp k hge (by omega)] at hk
        exact Except.noConfusion hk
    · intro hr
      exact get_subnet_cidr_oob cidr n h hp k hr

/-- C10 witness: offset -1 of 10.0.0.0/16 is its last /24 subnet. -/
theorem c10_negative_offsets_witness :
    get_subnet_cidr ("10.0.0.0/16") (-1) =
      .ok (netStr ⟨167772160 + (2 ^ (24 - 16) - 1) * 256, 24⟩) :=
  (c10_negative_offsets_index_from_end ("10.0.0.0/16") ⟨167772160, 16⟩
    (by decide) (by decide)).2.1
/-- Inline route argument of a route table declaration
(`aws.ec2.RouteTableRouteArgs`). -/
structure RouteArg where
  cidrBlock : String
  gatewayRef : String
deriving DecidableEq

/-- Security-group rule (`SecurityGroupIngressArgs`/`EgressArgs`):
protocol, port range and source/destination blocks. -/
structure SGRule where
  protocol : String
  fromPort : Nat
  toPort : Nat
  cidrBlocks : List String
deriving DecidableEq

/-- Resource declarations issued by `create_vpc_environment`, in the
engine-facing form: logical name, attributes, references to other
resources by logical name (modelling Pulumi `.id` outputs), and explicit
`depends_on` lists. -/
inductive Res where
  | vpc (lname : String) (cidrBlock : String)
      (enableDnsSupport enableDnsHostnames : Bool) (tags : List (String × String))
  | subnet (lname vpcRef cidrBlock az : String) (mapPublicIpOnLaunch : Bool)
      (tags : List (String × String))
  | internetGateway (lname vpcRef : String) (tags : List (String × String))
  | eip (lname : String) (vpcFlag : Bool)
  | natGateway (lname subnetRef allocationRef : String)
      (tags : List (String × String)) (dependsOn : List String)
  | routeTable (lname vpcRef : String) (routes : List RouteArg)
      (tags : List (String × String))
  | routeTableAssociation (lname subnetRef routeTableRef : String)
  | route (lname routeTableRef destinationCidr natRef : String) (dependsOn : List String)
  | securityGroup (lname vpcRef descr : String) (ingress egress : List SGRule)
      (tags : List (String × String))
deriving DecidableEq

/-- Logical name of a declared resource. -/
def Res.lname : Res → String
  | .vpc l _ _ _ _ => l
  | .subnet l _ _ _ _ _ => l
  | .internetGateway l _ _ => l
  | .eip l _ => l
  | .natGateway l _ _ _ _ => l
  | .routeTable l _ _ _ => l
  | .routeTableAssociation l _ _ => l
  | .route l _ _ _ _ => l
  | .securityGroup l _ _ _ _ _ => l

/-- Dependency edges of a declared resource: every attribute reference to
another resource's id (implicit edges) plus the explicit `depends_on`
entries. -/
def Res.refs : Res → List String
  | .vpc _ _ _ _ _ => []
  | .subnet _ v _ _ _ _ => [v]
  | .internetGateway _ v _ => [v]
  | .eip _ _ => []
  | .natGateway _ s a _ d => [s, a] ++ d
  | .routeTable _ v rts _ => v :: rts.map RouteArg.gatewayRef
  | .routeTableAssociation _ s rt => [s, rt]
  | .route _ rt _ nat d => [rt, nat] ++ d
  | .securityGroup _ v _ _ _ _ => [v]

/-- Explicit `depends_on` list of a declared resource (only NAT gateways
and routes carry one in the script). -/
def Res.dependsOnList : Res → List String
  | .natGateway _ _ _ _ d => d
  | .route _ _ _ _ d => d
  | _ => []

/-- Value exported via `pulumi.export`: a single resource id or a list. -/
inductive ExportVal where
  | id (ref : String)
  | idList (refs : List String)
deriving DecidableEq

/-- Tag dictionary `{"Environment": env, "Project": "bwiseth"}`. -/
def commonTags (env : String) : List (String × String) :=
  [(("Environment"), env), (("Project"), ("bwiseth"))]

/-- Tag merge `{**common_tags(name), "Name": rname}` (the keys of
`common_tags` never include "Name", so the merge is an append). -/
def tagsFor (env rname : String) : List (String × String) :=
  commonTags env ++ [(("Name"), rname)]

/-- The all-traffic egress rule used by both security groups. -/
def egressAll : SGRule := ⟨"-1", 0, 0, ["0.0.0.0/0"]⟩

/-- Model of `create_vpc_environment(name, cidr_block)`.  `zones` is the
list returned by the availability-zone query (the query itself runs after
the VPC declaration and cannot fail).  Declarations accumulate in program
order; a raised exception stops the build, leaving the declarations made
so far in the first component.  Argument evaluation order within each
declaration follows Python (cidr argument before availability-zone
index). -/
def buildEnv (name cidr : String) (zones : List String) :
    List Res × Except PyError (List (String × ExportVal)) :=
  let vpcN := name ++ "-vpc"
  let r0 : List Res := [.vpc vpcN cidr true true (tagsFor name vpcN)]
  match get_subnet_cidr cidr 1 with
  | .error e => (r0, .error e)
  | .ok c1 =>
  match pyIndex zones 0 with
  | .error e => (r0, .error e)
  | .ok za =>
  let ps1 : Res := .subnet (name ++ "-public-subnet1") vpcN c1 za true
    (tagsFor name (name ++ "-public-subnet1"))
  let r1 := r0 ++ [ps1]
  match get_subnet_cidr cidr 2 with
  | .error e => (r1, .error e)
  | .ok c2 =>
  match pyIndex zones 1 with
  | .error e => (r1, .error e)
  | .ok zb =>
  let ps2 : Res := .subnet (name ++ "-public-subnet2") vpcN c2 zb true
    (tagsFor name (name ++ "-public-subnet2"))
  let r2 := r1 ++ [ps2]
  match get_subnet_cidr cidr 3 with
  | .error e => (r2, .error e)
  | .ok c3 =>
  match pyIndex zones 0 with
  | .error e => (r2, .error e)
  | .ok za' =>
  let pr1 : Res := .subnet (name ++ "-private-subnet1") vpcN c3 za' false
    (tagsFor name (name ++ "-private-subnet1"))
  let r3 := r2 ++ [pr1]
  match get_subnet_cidr cidr 4 with
  | .error e => (r3, .error e)
  | .ok c4 =>
  match pyIndex zones 1 with
  | .error e => (r3, .error e)
  | .ok zb' =>
  let pr2 : Res := .subnet (name ++ "-private-subnet2") vpcN c4 zb' false
    (tagsFor name (name ++ "-private-subnet2"))
  let igwN := name ++ "-igw"
  let nat1N := name ++ "-nat-gateway1"
  let nat2N := name ++ "-nat-gateway2"
  let pubRtN := name ++ "-public-rt"
  let privRtN := name ++ "-private-rt"
  let rest : List Res :=
    [ .internetGateway igwN vpcN (tagsFor name igwN),
      .eip (name ++ "-eip1") true,
      .eip (name ++ "-eip2") true,
      .natGateway nat1N (name ++ "-public-subnet1") (name ++ "-eip1")
        (tagsFor name nat1N) [igwN],
      .natGateway nat2N (name ++ "-public-subnet2") (name ++ "-eip2")
        (tagsFor name nat2N) [igwN],
      .routeTable pubRtN vpcN [⟨"0.0.0.0/0", igwN⟩] (tagsFor name pubRtN),
      .routeTable privRtN vpcN [] (tagsFor name privRtN),
      .routeTableAssociation (name ++ "-public-rt-assoc1") (name ++ "-public-subnet1") pubRtN,
      .routeTableAssociation (name ++ "-public-rt-assoc2") (name ++ "-public-subnet2") pubRtN,
      .routeTableAssociation (name ++ "-private-rt-assoc1") (name ++ "-private-subnet1") privRtN,
      .routeTableAssociation (name ++ "-private-rt-assoc2") (name ++ "-private-subnet2") privRtN,
      .route (name ++ "-private-route1") privRtN ("0.0.0.0/0") nat1N [nat1N],
      .route (name ++ "-private-route2") privRtN ("0.0.0.0/0") nat2N [nat2N],
      .securityGroup (name ++ "-public-sg") vpcN ("Allow HTTP and HTTPS inbound")
        [⟨"tcp", 80, 80, ["0.0.0.0/0"]⟩, ⟨"tcp", 443, 443, ["0.0.0.0/0"]⟩]
        [egressAll] (tagsFor name (name ++ "-public-sg")),
      .securityGroup (name ++ "-private-sg") vpcN
        ("Allow internal service-to-service communication")
        [⟨"tcp", 0, 65535, [cidr]⟩] [egressAll]
        (tagsFor name (name ++ "-private-sg")) ]
  let exports : List (String × ExportVal) :=
    [ (name ++ "_vpc_id", .id vpcN),
      (name ++ "_public_subnets",
        .idList [name ++ "-public-subnet1", name ++ "-public-subnet2"]),
      (name ++ "_private_subnets",
        .idList [name ++ "-private-subnet1", name ++ "-private-subnet2"]),
      (name ++ "_nat_gateway_ids", .idList [nat1N, nat2N]) ]
  (r3 ++ [pr2] ++ rest, .ok exports)

/-- Model of the whole program: the dev environment is built with base
block 10.0.0.0/16, then the prod environment with 10.1.0.0/16.  Each
build performs its own availability-zone query, so each receives its own
query result. -/
def program (zonesDev zonesProd : List String) :
    List Res × Except PyError (List (String × ExportVal)) :=
  match buildEnv ("bwiseth_dev") ("10.0.0.0/16") zonesDev with
  | (rs, .error e) => (rs, .error e)
  | (rs, .ok outs) =>
    match buildEnv ("bwiseth_prod") ("10.1.0.0/16") zonesProd with
    | (rs2, .error e) => (rs ++ rs2, .error e)
    | (rs2, .ok outs2) => (rs ++ rs2, .ok (outs ++ outs2))
/-- The twenty resource declarations of one successfully built
environment with base network address `a` (a /16) and first two zones
`z0`, `z1`, in declaration order. -/
def envResources (name cidr : String) (a : Nat) (z0 z1 : String) : List Res :=
  [ .vpc (name ++ "-vpc") cidr true true (tagsFor name (name ++ "-vpc")),
    .subnet (name ++ "-public-subnet1") (name ++ "-vpc") (netStr ⟨a + 256, 24⟩) z0 true
      (tagsFor name (name ++ "-public-subnet1")),
    .subnet (name ++ "-public-subnet2") (name ++ "-vpc") (netStr ⟨a + 512, 24⟩) z1 true
      (tagsFor name (name ++ "-public-subnet2")),
    .subnet (name ++ "-private-subnet1") (name ++ "-vpc") (netStr ⟨a + 768, 24⟩) z0 false
      (tagsFor name (name ++ "-private-subnet1")),
    .subnet (name ++ "-private-subnet2") (name ++ "-vpc") (netStr ⟨a + 1024, 24⟩) z1 false
      (tagsFor name (name ++ "-private-subnet2")),
    .internetGateway (name ++ "-igw") (name ++ "-vpc") (tagsFor name (name ++ "-igw")),
    .eip (name ++ "-eip1") true,
    .eip (name ++ "-eip2") true,
    .natGateway (name ++ "-nat-gateway1") (name ++ "-public-subnet1") (name ++ "-eip1")
      (tagsFor name (name ++ "-nat-gateway1")) [name ++ "-igw"],
    .natGateway (name ++ "-nat-gateway2") (name ++ "-public-subnet2") (name ++ "-eip2")
      (tagsFor name (name ++ "-nat-gateway2")) [name ++ "-igw"],
    .routeTable (name ++ "-public-rt") (name ++ "-vpc") [⟨"0.0.0.0/0", name ++ "-igw"⟩]
      (tagsFor name (name ++ "-public-rt")),
    .routeTable (name ++ "-private-rt") (name ++ "-vpc") []
      (tagsFor name (name ++ "-private-rt")),
    .routeTableAssociation (name ++ "-public-rt-assoc1") (name ++ "-public-subnet1")
      (name ++ "-public-rt"),
    .routeTableAssociation (name ++ "-public-rt-assoc2") (name ++ "-public-subnet2")
      (name ++ "-public-rt"),
    .routeTableAssociation (name ++ "-private-rt-assoc1") (name ++ "-private-subnet1")
      (name ++ "-private-rt"),
    .routeTableAssociation (name ++ "-private-rt-assoc2") (name ++ "-private-subnet2")
      (name ++ "-private-rt"),
    .route (name ++ "-private-route1") (name ++ "-private-rt") ("0.0.0.0/0")
      (name ++ "-nat-gateway1") [name ++ "-nat-gateway1"],
    .route (name ++ "-private-route2") (name ++ "-private-rt") ("0.0.0.0/0")
      (name ++ "-nat-gateway2") [name ++ "-nat-gateway2"],
    .securityGroup (name ++ "-public-sg") (name ++ "-vpc") ("Allow HTTP and HTTPS inbound")
      [⟨"tcp", 80, 80, ["0.0.0.0/0"]⟩, ⟨"tcp", 443, 443, ["0.0.0.0/0"]⟩]
      [egressAll] (tagsFor name (name ++ "-public-sg")),
    .securityGroup (name ++ "-private-sg") (name ++ "-vpc")
      ("Allow internal service-to-service communication")
      [⟨"tcp", 0, 65535, [cidr]⟩] [egressAll] (tagsFor name (name ++ "-private-sg")) ]

/-- The four exported outputs of one environment. -/
def envExports (name : String) : List (String × ExportVal) :=
  [ (name ++ "_vpc_id", .id (name ++ "-vpc")),
    (name ++ "_public_subnets",
      .idList [name ++ "-public-subnet1", name ++ "-public-subnet2"]),
    (name ++ "_private_subnets",
      .idList [name ++ "-private-subnet1", name ++ "-private-subnet2"]),
    (name ++ "_nat_gateway_ids",
      .idList [name ++ "-nat-gateway1", name ++ "-nat-gateway2"]) ]

/-- A build with a valid /16 base block and at least two availability
zones succeeds and declares exactly the resources of `envResources`,
exporting `envExports`. -/
theorem buildEnv_eq (name cidr : String) (a : Nat) (z0 z1 : String) (zs : List String)
    (h : parseIPv4Network cidr = some ⟨a, 16⟩) :
    buildEnv name cidr (z0 :: z1 :: zs) =
      (envResources name cidr a z0 z1, .ok (envExports name)) := by
  have e1 := get_subnet_cidr_ok cidr ⟨a, 16⟩ h (by norm_num) 1 (by norm_num)
    (show (1 : Int) < ((256 : Nat) : Int) by norm_num)
  have e2 := get_subnet_cidr_ok cidr ⟨a, 16⟩ h (by norm_num) 2 (by norm_num)
    (show (2 : Int) < ((256 : Nat) : Int) by norm_num)
  have e3 := get_subnet_cidr_ok cidr ⟨a, 16⟩ h (by norm_num) 3 (by norm_num)
    (show (3 : Int) < ((256 : Nat) : Int) by norm_num)
  have e4 := get_subnet_cidr_ok cidr ⟨a, 16⟩ h (by norm_num) 4 (by norm_num)
    (show (4 : Int) < ((256 : Nat) : Int) by norm_num)
  norm_num at e1 e2 e3 e4
  have p0 : pyIndex (z0 :: z1 :: zs) (0 : Int) = .ok z0 := by
    rw [pyIndex_ok _ 0 (by norm_num)
      (by simp only [List.length_cons]; push_cast; omega)]
    rfl
  have p1 : pyIndex (z0 :: z1 :: zs) (1 : Int) = .ok z1 := by
    rw [pyIndex_ok _ 1 (by norm_num)
      (by simp only [List.length_cons]; push_cast; omega)]
    rfl
  unfold buildEnv
  rw [e1, e2, e3, e4, p0, p1]
  rfl
/-- String append determines its right operand: data-level cancellation. -/
theorem string_append_right_inj (s a b : String) : s ++ a = s ++ b ↔ a = b := by
  constructor
  · intro h
    have hd := congrArg String.data h
    simp only [String.data_append] at hd
    exact String.ext (List.append_cancel_left hd)
  · intro h
    rw [h]

/-- Boolean form of `string_append_right_inj`, for reducing logical-name
comparisons between resources of the same environment. -/
theorem string_append_beq (s a b : String) : (s ++ a == s ++ b) = (a == b) := by
  by_cases h : a = b
  · subst h
    simp
  · have h2 : ¬ (s ++ a = s ++ b) := fun hc => h ((string_append_right_inj s a b).mp hc)
    rw [beq_eq_false_iff_ne.mpr h, beq_eq_false_iff_ne.mpr h2]

/-- Lookup of a declared resource by logical name. -/
def findRes (rs : List Res) (nm : String) : Option Res :=
  rs.find? (fun r => r.lname == nm)

/-- Availability zone a NAT gateway is pinned to, resolved through the
public subnet its `subnet_id` references. -/
def natGatewayAz (rs : List Res) (nm : String) : Option String :=
  match findRes rs nm with
  | some (.natGateway _ subnetRef _ _ _) =>
    match findRes rs subnetRef with
    | some (.subnet _ _ _ az _ _) => some az
    | _ => none
  | _ => none

/-- Ingress rule list of a declared security group. -/
def sgIngress (rs : List Res) (nm : String) : Option (List SGRule) :=
  match findRes rs nm with
  | some (.securityGroup _ _ _ ing _ _) => some ing
  | _ => none

/-- Inline routes of a declared route table. -/
def rtInlineRoutes (rs : List Res) (nm : String) : Option (List RouteArg) :=
  match findRes rs nm with
  | some (.routeTable _ _ routes _) => some routes
  | _ => none

/-- Standalone `Route` resource declaring a default route (destination
0.0.0.0/0) in the given route table. -/
def isDefaultRouteTo (rtName : String) : Res → Bool
  | .route _ rt dest _ _ => rt == rtName && dest == ("0.0.0.0/0")
  | _ => false

/-- Subnet declarations. -/
def Res.isSubnetRes : Res → Bool
  | .subnet _ _ _ _ _ _ => true
  | _ => false

/-- Route-table association declarations. -/
def Res.isAssoc : Res → Bool
  | .routeTableAssociation _ _ _ => true
  | _ => false

/-- Route-table declarations. -/
def Res.isRouteTableRes : Res → Bool
  | .routeTable _ _ _ _ => true
  | _ => false

/-- NAT-gateway declarations. -/
def Res.isNatGatewayRes : Res → Bool
  | .natGateway _ _ _ _ _ => true
  | _ => false

/-- Declaration order is a topological order: every dependency of every
declared resource names an earlier-declared resource. -/
def topoOrderedAux (seen : List String) : List Res → Bool
  | [] => true
  | r :: rest => r.refs.all (fun d => seen.contains d) && topoOrderedAux (r.lname :: seen) rest

/-- Topological well-formedness of a whole declaration list. -/
def topoOrdered (rs : List Res) : Bool :=
  topoOrderedAux [] rs

/-- Dependency edge of the declared resource graph: `x` depends on `y`. -/
def depEdge (rs : List Res) (x y : String) : Prop :=
  ∃ r ∈ rs, r.lname = x ∧ y ∈ r.refs

/-- Acyclicity of the declared resource dependency graph: no name reaches
itself through one or more dependency edges. -/
def Acyclic (rs : List Res) : Prop :=
  ∀ x : String, ¬ Relation.TransGen (depEdge rs) x x

/-- With nodup names, the index of the `i`-th element is `i`. -/
theorem nodup_indexOf_get (l : List String) (i : Nat) (hi : i < l.length)
    (hnd : l.Nodup) : List.indexOf (l.get ⟨i, hi⟩) l = i := by
  induction l generalizing i with
  | nil => simp at hi
  | cons a t ih =>
    cases i with
    | zero => simp [List.indexOf_cons_self]
    | succ i' =>
      have hne : a ≠ t.get ⟨i', by simpa using hi⟩ := by
        intro hc
        exact (List.nodup_cons.mp hnd).1 (hc ▸ List.get_mem t i' (by simpa using hi))
      simp only [List.get_cons_succ]
      rw [List.indexOf_cons_ne _ hne]
      exact congrArg Nat.succ (ih i' (by simpa using hi) (List.nodup_cons.mp hnd).2)

/-- Membership in a prefix bounds the index. -/
theorem indexOf_lt_of_mem_take (l : List String) (y : String) (i : Nat)
    (h : y ∈ l.take i) : List.indexOf y l < i := by
  induction l generalizing i with
  | nil => simp at h
  | cons a t ih =>
    cases i with
    | zero => simp at h
    | succ i' =>
      rw [List.take_succ_cons] at h
      rcases List.mem_cons.mp h with h | h
      · subst h
        simp [List.indexOf_cons_self]
      · by_cases ha : a = y
        · subst ha
          simp [List.indexOf_cons_self]
        · rw [List.indexOf_cons_ne _ ha]
          exact Nat.succ_lt_succ (ih i' h)

/-- In a topologically ordered prefix-checked list, every dependency of
the `i`-th resource is either in `seen` or among the earlier names. -/
theorem topoAux_refs_mem (seen : List String) (rs : List Res)
    (ht : topoOrderedAux seen rs = true) :
    ∀ i : Nat, ∀ hi : i < rs.length, ∀ y ∈ (rs.get ⟨i, hi⟩).refs,
      y ∈ seen ∨ y ∈ (rs.take i).map Res.lname := by
  induction rs generalizing seen with
  | nil =>
    intro i hi
    simp at hi
  | cons r rest ih =>
    intro i hi y hy
    unfold topoOrderedAux at ht
    rw [Bool.and_eq_true] at ht
    obtain ⟨h1, h2⟩ := ht
    cases i with
    | zero =>
      left
      have := List.all_eq_true.mp h1 y (by simpa using hy)
      simpa using this
    | succ i' =>
      have hy' : y ∈ (rest.get ⟨i', by simpa using hi⟩).refs := by
        simpa using hy
      rcases ih (r.lname :: seen) h2 i' (by simpa using hi) y hy' with hmem | hmem
      · rcases List.mem_cons.mp hmem with hmem | hmem
        · right
          rw [List.take_succ_cons]
          simp [hmem]
        · left
          exact hmem
      · right
        rw [List.take_succ_cons]
        simp only [List.map_cons, List.mem_cons]
        right
        exact hmem

/-- Each dependency edge strictly decreases position in a topologically
ordered declaration list with nodup names. -/
theorem topo_edge_rank (rs : List Res) (hnd : (rs.map Res.lname).Nodup)
    (ht : topoOrdered rs = true) (x y : String) (hxy : depEdge rs x y) :
    List.indexOf y (rs.map Res.lname) < List.indexOf x (rs.map Res.lname) := by
  obtain ⟨r, hr, hlx, hyr⟩ := hxy
  obtain ⟨⟨i, hi⟩, hget⟩ := List.mem_iff_get.mp hr
  have hmem := topoAux_refs_mem [] rs ht i hi y (by rw [hget]; exact hyr)
  rcases hmem with hmem | hmem
  · simp at hmem
  · have hx : List.indexOf x (rs.map Res.lname) = i := by
      have hgx : (rs.map Res.lname).get ⟨i, by simpa using hi⟩ = x := by
        rw [List.get_map]
        rw [hget, hlx]
      rw [← hgx]
      exact nodup_indexOf_get (rs.map Res.lname) i (by simpa using hi) hnd
    have hy2 : y ∈ (rs.map Res.lname).take i := by
      rw [← List.map_take]
      exact hmem
    rw [hx]
    exact indexOf_lt_of_mem_take (rs.map Res.lname) y i hy2

/-- A topologically ordered declaration list with nodup names has an
acyclic dependency graph. -/
theorem topo_acyclic (rs : List Res) (hnd : (rs.map Res.lname).Nodup)
    (ht : topoOrdered rs = true) : Acyclic rs := by
  intro x hx
  have key : ∀ u v : String, Relation.TransGen (depEdge rs) u v →
      List.indexOf v (rs.map Res.lname) < List.indexOf u (rs.map Res.lname) := by
    intro u v hreach
    induction hreach with
    | single h => exact topo_edge_rank rs hnd ht _ _ h
    | tail h1 h2 ih => exact lt_trans (topo_edge_rank rs hnd ht _ _ h2) ih
  exact absurd (key x x hx) (lt_irrefl _)
/-- Logical names of a built environment, in declaration order. -/
theorem envResources_lnames (name cidr : String) (a : Nat) (z0 z1 : String) :
    (envResources name cidr a z0 z1).map Res.lname =
      [name ++ "-vpc", name ++ "-public-subnet1", name ++ "-public-subnet2",
       name ++ "-private-subnet1", name ++ "-private-subnet2", name ++ "-igw",
       name ++ "-eip1", name ++ "-eip2", name ++ "-nat-gateway1", name ++ "-nat-gateway2",
       name ++ "-public-rt", name ++ "-private-rt", name ++ "-public-rt-assoc1",
       name ++ "-public-rt-assoc2", name ++ "-private-rt-assoc1", name ++ "-private-rt-assoc2",
       name ++ "-private-route1", name ++ "-private-route2", name ++ "-public-sg",
       name ++ "-private-sg"] := rfl

/-- Logical names of a built environment are pairwise distinct. -/
theorem envResources_lnames_nodup (name cidr : String) (a : Nat) (z0 z1 : String) :
    ((envResources name cidr a z0 z1).map Res.lname).Nodup := by
  rw [envResources_lnames]
  simp [List.nodup_cons, string_append_right_inj]

/-- The declaration order of a built environment is a topological order
of its dependency graph. -/
theorem envResources_topo (name cidr : String) (a : Nat) (z0 z1 : String) :
    topoOrdered (envResources name cidr a z0 z1) = true := by
  simp [topoOrdered, topoOrderedAux, envResources, Res.refs, Res.lname,
    RouteArg.gatewayRef, List.contains, List.elem, string_append_beq]
/-- C4 counterexample: building with a single-zone query result fails
with `IndexError` (not `CapacityError` — no zone-count check exists), and
only after the VPC and the first public subnet have been declared. -/
theorem c4_counterexample_vpc_declared_before_zone_failure :
    (buildEnv ("bwiseth_dev") ("10.0.0.0/16") [("use1-az1")]).2 = .error .indexError
    ∧ (buildEnv ("bwiseth_dev") ("10.0.0.0/16") [("use1-az1")]).2 ≠ .error .capacityError
    ∧ (buildEnv ("bwiseth_dev") ("10.0.0.0/16") [("use1-az1")]).1.map Res.lname =
        [("bwiseth_dev-vpc"), ("bwiseth_dev-public-subnet1")] := by
  refine ⟨by decide, by decide, by decide⟩

/-- C4 (amended): when the availability-zone query returns fewer than two
zones, the environment build fails with an `IndexError` raised by the
zone-list indexing — not a `CapacityError` — and the VPC resource has
already been declared when the failure occurs. -/
theorem c4_amended_zone_shortage (name cidr : String) (a : Nat) (zones : List String)
    (h : parseIPv4Network cidr = some ⟨a, 16⟩) (hz : zones.length < 2) :
    (buildEnv name cidr zones).2 = .error .indexError
    ∧ (buildEnv name cidr zones).2 ≠ .error .capacityError
    ∧ (buildEnv name cidr zones).1.head? =
        some (.vpc (name ++ "-vpc") cidr true true (tagsFor name (name ++ "-vpc"))) := by
  have e1 := get_subnet_cidr_ok cidr ⟨a, 16⟩ h (by norm_num) 1 (by norm_num)
    (show (1 : Int) < ((256 : Nat) : Int) by norm_num)
  have e2 := get_subnet_cidr_ok cidr ⟨a, 16⟩ h (by norm_num) 2 (by norm_num)
    (show (2 : Int) < ((256 : Nat) : Int) by norm_num)
  match zones, hz with
  | [], _ =>
    have p0 : pyIndex ([] : List String) (0 : Int) = .error .indexError := by rfl
    have hval : buildEnv name cidr [] =
        ([.vpc (name ++ "-vpc") cidr true true (tagsFor name (name ++ "-vpc"))],
         .error .indexError) := by
      unfold buildEnv
      rw [e1, p0]
    rw [hval]
    exact ⟨rfl, by simp, rfl⟩
  | [z], _ =>
    have p0 : pyIndex [z] (0 : Int) = .ok z := by rfl
    have p1 : pyIndex [z] (1 : Int) = .error .indexError := by rfl
    have hval : buildEnv name cidr [z] =
        ([.vpc (name ++ "-vpc") cidr true true (tagsFor name (name ++ "-vpc")),
          .subnet (name ++ "-public-subnet1") (name ++ "-vpc")
            (netStr ⟨a + (1 : Int).toNat * 256, 24⟩) z true
            (tagsFor name (name ++ "-public-subnet1"))],
         .error .indexError) := by
      unfold buildEnv
      rw [e1, p0, e2, p1]
      rfl
    rw [hval]
    exact ⟨rfl, by simp, rfl⟩

/-- C4 witness: the amended claim at a concrete one-zone build. -/
theorem c4_amended_zone_shortage_witness :
    (buildEnv ("bwiseth_dev") ("10.0.0.0/16") [("use1-az1")]).2 = .error .indexError
    ∧ (buildEnv ("bwiseth_dev") ("10.0.0.0/16") [("use1-az1")]).2 ≠ .error .capacityError
    ∧ (buildEnv ("bwiseth_dev") ("10.0.0.0/16") [("use1-az1")]).1.head? =
        some (.vpc ("bwiseth_dev" ++ "-vpc") ("10.0.0.0/16")
          true true (tagsFor ("bwiseth_dev") ("bwiseth_dev" ++ "-vpc"))) :=
  c4_amended_zone_shortage ("bwiseth_dev") ("10.0.0.0/16") 167772160 [("use1-az1")]
    (by decide) (by decide)

/-- C5: in every built environment, the standalone routes whose
destination is 0.0.0.0/0 and whose table is the private route table are
exactly two, they reference the two distinct NAT gateways, the private
route table itself declares no inline routes, and the two NAT gateways
resolve (through their public subnets) to the two distinct selected
availability zones. -/
theorem c5_private_default_routes_two_nats_two_zones
    (name cidr : String) (a : Nat) (z0 z1 : String) (zs : List String)
    (h : parseIPv4Network cidr = some ⟨a, 16⟩) (hz : z0 ≠ z1) :
    ((buildEnv name cidr (z0 :: z1 :: zs)).1.filter
        (isDefaultRouteTo (name ++ "-private-rt")) =
      [.route (name ++ "-private-route1") (name ++ "-private-rt") ("0.0.0.0/0")
         (name ++ "-nat-gateway1") [name ++ "-nat-gateway1"],
       .route (name ++ "-private-route2") (name ++ "-private-rt") ("0.0.0.0/0")
         (name ++ "-nat-gateway2") [name ++ "-nat-gateway2"]])
    ∧ name ++ "-nat-gateway1" ≠ name ++ "-nat-gateway2"
    ∧ rtInlineRoutes (buildEnv name cidr (z0 :: z1 :: zs)).1 (name ++ "-private-rt") = some []
    ∧ natGatewayAz (buildEnv name cidr (z0 :: z1 :: zs)).1 (name ++ "-nat-gateway1") = some z0
    ∧ natGatewayAz (buildEnv name cidr (z0 :: z1 :: zs)).1 (name ++ "-nat-gateway2") = some z1
    ∧ natGatewayAz (buildEnv name cidr (z0 :: z1 :: zs)).1 (name ++ "-nat-gateway1") ≠
        natGatewayAz (buildEnv name cidr (z0 :: z1 :: zs)).1 (name ++ "-nat-gateway2") := by
  rw [buildEnv_eq name cidr a z0 z1 zs h]
  dsimp only
  have hnat1 : natGatewayAz (envResources name cidr a z0 z1) (name ++ "-nat-gateway1") =
      some z0 := by
    simp [natGatewayAz, findRes, envResources, List.find?, Res.lname, string_append_beq]
  have hnat2 : natGatewayAz (envResources name cidr a z0 z1) (name ++ "-nat-gateway2") =
      some z1 := by
    simp [natGatewayAz, findRes, envResources, List.find?, Res.lname, string_append_beq]
  refine ⟨?_, ?_, ?_, hnat1, hnat2, ?_⟩
  · simp [envResources, isDefaultRouteTo, List.filter, string_append_beq]
  · simp [string_append_right_inj]
  · simp [rtInlineRoutes, findRes, envResources, List.find?, Res.lname, string_append_beq]
  · rw [hnat1, hnat2]
    simp [hz]

/-- C5 witness at a concrete environment with two distinct zones. -/
theorem c5_private_default_routes_witness :
    ((buildEnv ("bwiseth_dev") ("10.0.0.0/16") [("use1-az1"), ("use1-az2")]).1.filter
        (isDefaultRouteTo ("bwiseth_dev" ++ "-private-rt")) =
      [.route ("bwiseth_dev" ++ "-private-route1") ("bwiseth_dev" ++ "-private-rt")
         ("0.0.0.0/0") ("bwiseth_dev" ++ "-nat-gateway1") [("bwiseth_dev" ++ "-nat-gateway1")],
       .route ("bwiseth_dev" ++ "-private-route2") ("bwiseth_dev" ++ "-private-rt")
         ("0.0.0.0/0") ("bwiseth_dev" ++ "-nat-gateway2") [("bwiseth_dev" ++ "-nat-gateway2")]])
    ∧ "bwiseth_dev" ++ "-nat-gateway1" ≠ "bwiseth_dev" ++ "-nat-gateway2"
    ∧ rtInlineRoutes (buildEnv ("bwiseth_dev") ("10.0.0.0/16") [("use1-az1"), ("use1-az2")]).1
        ("bwiseth_dev" ++ "-private-rt") = some []
    ∧ natGatewayAz (buildEnv ("bwiseth_dev") ("10.0.0.0/16") [("use1-az1"), ("use1-az2")]).1
        ("bwiseth_dev" ++ "-nat-gateway1") = some ("use1-az1")
    ∧ natGatewayAz (buildEnv ("bwiseth_dev") ("10.0.0.0/16") [("use1-az1"), ("use1-az2")]).1
        ("bwiseth_dev" ++ "-nat-gateway2") = some ("use1-az2")
    ∧ natGatewayAz (buildEnv ("bwiseth_dev") ("10.0.0.0/16") [("use1-az1"), ("use1-az2")]).1
        ("bwiseth_dev" ++ "-nat-gateway1") ≠
        natGatewayAz (buildEnv ("bwiseth_dev") ("10.0.0.0/16") [("use1-az1"), ("use1-az2")]).1
        ("bwiseth_dev" ++ "-nat-gateway2") :=
  c5_private_default_routes_two_nats_two_zones ("bwiseth_dev") ("10.0.0.0/16") 167772160
    ("use1-az1") ("use1-az2") [] (by decide) (by decide)

/-- C6: in every built environment the public security group's ingress
rules are exactly tcp/80 and tcp/443 from 0.0.0.0/0, and the private
security group's single ingress rule spans the full port range with the
environment's own base block as the only source. -/
theorem c6_security_group_ingress_exact
    (name cidr : String) (a : Nat) (z0 z1 : String) (zs : List String)
    (h : parseIPv4Network cidr = some ⟨a, 16⟩) :
    sgIngress (buildEnv name cidr (z0 :: z1 :: zs)).1 (name ++ "-public-sg") =
      some [⟨"tcp", 80, 80, ["0.0.0.0/0"]⟩, ⟨"tcp", 443, 443, ["0.0.0.0/0"]⟩]
    ∧ sgIngress (buildEnv name cidr (z0 :: z1 :: zs)).1 (name ++ "-private-sg") =
      some [⟨"tcp", 0, 65535, [cidr]⟩] := by
  rw [buildEnv_eq name cidr a z0 z1 zs h]
  constructor
  · simp [sgIngress, findRes, envResources, List.find?, Res.lname, string_append_beq]
  · simp [sgIngress, findRes, envResources, List.find?, Res.lname, string_append_beq]

/-- C6 witness at a concrete environment. -/
theorem c6_security_group_ingress_witness :
    sgIngress (buildEnv ("bwiseth_dev") ("10.0.0.0/16") [("use1-az1"), ("use1-az2")]).1
        ("bwiseth_dev" ++ "-public-sg") =
      some [⟨"tcp", 80, 80, ["0.0.0.0/0"]⟩, ⟨"tcp", 443, 443, ["0.0.0.0/0"]⟩]
    ∧ sgIngress (buildEnv ("bwiseth_dev") ("10.0.0.0/16") [("use1-az1"), ("use1-az2")]).1
        ("bwiseth_dev" ++ "-private-sg") = some [⟨"tcp", 0, 65535, [("10.0.0.0/16")]⟩] :=
  c6_security_group_ingress_exact ("bwiseth_dev") ("10.0.0.0/16") 167772160
    ("use1-az1") ("use1-az2") [] (by decide)

/-- C9: in every built environment the four subnets pair one public and
one private subnet per selected zone, the four route-table associations
bind the public subnets to the public table and the private subnets to
the private table, and there are exactly those two route tables. -/
theorem c9_zone_pairing_and_associations
    (name cidr : String) (a : Nat) (z0 z1 : String) (zs : List String)
    (h : parseIPv4Network cidr = some ⟨a, 16⟩) (hz : z0 ≠ z1) :
    ((buildEnv name cidr (z0 :: z1 :: zs)).1.filter Res.isSubnetRes =
      [.subnet (name ++ "-public-subnet1") (name ++ "-vpc") (netStr ⟨a + 256, 24⟩) z0 true
         (tagsFor name (name ++ "-public-subnet1")),
       .subnet (name ++ "-public-subnet2") (name ++ "-vpc") (netStr ⟨a + 512, 24⟩) z1 true
         (tagsFor name (name ++ "-public-subnet2")),
       .subnet (name ++ "-private-subnet1") (name ++ "-vpc") (netStr ⟨a + 768, 24⟩) z0 false
         (tagsFor name (name ++ "-private-subnet1")),
       .subnet (name ++ "-private-subnet2") (name ++ "-vpc") (netStr ⟨a + 1024, 24⟩) z1 false
         (tagsFor name (name ++ "-private-subnet2"))])
    ∧ ((buildEnv name cidr (z0 :: z1 :: zs)).1.filter Res.isAssoc =
      [.routeTableAssociation (name ++ "-public-rt-assoc1") (name ++ "-public-subnet1")
         (name ++ "-public-rt"),
       .routeTableAssociation (name ++ "-public-rt-assoc2") (name ++ "-public-subnet2")
         (name ++ "-public-rt"),
       .routeTableAssociation (name ++ "-private-rt-assoc1") (name ++ "-private-subnet1")
         (name ++ "-private-rt"),
       .routeTableAssociation (name ++ "-private-rt-assoc2") (name ++ "-private-subnet2")
         (name ++ "-private-rt")])
    ∧ ((buildEnv name cidr (z0 :: z1 :: zs)).1.filter Res.isRouteTableRes =
      [.routeTable (name ++ "-public-rt") (name ++ "-vpc")
         [⟨"0.0.0.0/0", name ++ "-igw"⟩] (tagsFor name (name ++ "-public-rt")),
       .routeTable (name ++ "-private-rt") (name ++ "-vpc") []
         (tagsFor name (name ++ "-private-rt"))])
    ∧ z0 ≠ z1 := by
  rw [buildEnv_eq name cidr a z0 z1 zs h]
  exact ⟨rfl, rfl, rfl, hz⟩

/-- C9 witness at a concrete environment. -/
theorem c9_zone_pairing_witness :
    ((buildEnv ("bwiseth_dev") ("10.0.0.0/16") [("use1-az1"), ("use1-az2")]).1.filter
        Res.isSubnetRes).map Res.lname =
      [("bwiseth_dev-public-subnet1"), ("bwiseth_dev-public-subnet2"),
       ("bwiseth_dev-private-subnet1"), ("bwiseth_dev-private-subnet2")] := by
  have hc := c9_zone_pairing_and_associations ("bwiseth_dev") ("10.0.0.0/16") 167772160
    ("use1-az1") ("use1-az2") [] (by decide) (by decide)
  rw [hc.1]
  decide
/-- C8: the declared dependency graph of every built environment is
acyclic (the declaration order is a topological order), and each of the
two NAT gateway declarations carries the Internet Gateway in its explicit
`depends_on` list. -/
theorem c8_dependency_graph_acyclic_nat_igw
    (name cidr : String) (a : Nat) (z0 z1 : String) (zs : List String)
    (h : parseIPv4Network cidr = some ⟨a, 16⟩) :
    Acyclic (buildEnv name cidr (z0 :: z1 :: zs)).1
    ∧ ((buildEnv name cidr (z0 :: z1 :: zs)).1.filter Res.isNatGatewayRes).map
        Res.dependsOnList = [[name ++ "-igw"], [name ++ "-igw"]]
    ∧ ∀ r ∈ (buildEnv name cidr (z0 :: z1 :: zs)).1, Res.isNatGatewayRes r = true →
        (name ++ "-igw") ∈ r.dependsOnList := by
  rw [buildEnv_eq name cidr a z0 z1 zs h]
  refine ⟨topo_acyclic _ (envResources_lnames_nodup name cidr a z0 z1)
      (envResources_topo name cidr a z0 z1), rfl, ?_⟩
  intro r hr hnat
  have hr' : r ∈ envResources name cidr a z0 z1 := hr
  rw [envResources] at hr'
  fin_cases hr' <;> simp_all [Res.isNatGatewayRes, Res.dependsOnList]

/-- C8 witness at a concrete environment. -/
theorem c8_dependency_graph_witness :
    Acyclic (buildEnv ("bwiseth_dev") ("10.0.0.0/16") [("use1-az1"), ("use1-az2")]).1
    ∧ ((buildEnv ("bwiseth_dev") ("10.0.0.0/16")
          [("use1-az1"), ("use1-az2")]).1.filter Res.isNatGatewayRes).map
        Res.dependsOnList = [[("bwiseth_dev" ++ "-igw")], [("bwiseth_dev" ++ "-igw")]]
    ∧ ∀ r ∈ (buildEnv ("bwiseth_dev") ("10.0.0.0/16") [("use1-az1"), ("use1-az2")]).1,
        Res.isNatGatewayRes r = true → ("bwiseth_dev" ++ "-igw") ∈ r.dependsOnList :=
  c8_dependency_graph_acyclic_nat_igw ("bwiseth_dev") ("10.0.0.0/16") 167772160
    ("use1-az1") ("use1-az2") [] (by decide)

/-- C7: building the two environments with base blocks 10.0.0.0/16 and
10.1.0.0/16 declares the two resource sets in sequence with no shared
logical identifier (all forty names are distinct, and the dev names are
disjoint from the prod names), and each environment exports exactly its
own four outputs under its own name prefix: vpc id, public subnet list,
private subnet list, NAT gateway id list. -/
theorem c7_two_environments_disjoint_and_exports
    (d0 d1 p0 p1 : String) (ds ps : List String) :
    program (d0 :: d1 :: ds) (p0 :: p1 :: ps) =
      (envResources ("bwiseth_dev") ("10.0.0.0/16") 167772160 d0 d1 ++
         envResources ("bwiseth_prod") ("10.1.0.0/16") 167837696 p0 p1,
       .ok (envExports ("bwiseth_dev") ++ envExports ("bwiseth_prod")))
    ∧ (∀ x, x ∈ (envResources ("bwiseth_dev") ("10.0.0.0/16") 167772160 d0 d1).map Res.lname →
        x ∉ (envResources ("bwiseth_prod") ("10.1.0.0/16") 167837696 p0 p1).map Res.lname)
    ∧ ((program (d0 :: d1 :: ds) (p0 :: p1 :: ps)).1.map Res.lname).Nodup
    ∧ envExports ("bwiseth_dev") =
        [(("bwiseth_dev_vpc_id"), .id ("bwiseth_dev-vpc")),
         (("bwiseth_dev_public_subnets"),
           .idList [("bwiseth_dev-public-subnet1"), ("bwiseth_dev-public-subnet2")]),
         (("bwiseth_dev_private_subnets"),
           .idList [("bwiseth_dev-private-subnet1"), ("bwiseth_dev-private-subnet2")]),
         (("bwiseth_dev_nat_gateway_ids"),
           .idList [("bwiseth_dev-nat-gateway1"), ("bwiseth_dev-nat-gateway2")])]
    ∧ envExports ("bwiseth_prod") =
        [(("bwiseth_prod_vpc_id"), .id ("bwiseth_prod-vpc")),
         (("bwiseth_prod_public_subnets"),
           .idList [("bwiseth_prod-public-subnet1"), ("bwiseth_prod-public-subnet2")]),
         (("bwiseth_prod_private_subnets"),
           .idList [("bwiseth_prod-private-subnet1"), ("bwiseth_prod-private-subnet2")]),
         (("bwiseth_prod_nat_gateway_ids"),
           .idList [("bwiseth_prod-nat-gateway1"), ("bwiseth_prod-nat-gateway2")])] := by
  have hd := buildEnv_eq ("bwiseth_dev") ("10.0.0.0/16") 167772160 d0 d1 ds (by decide)
  have hp := buildEnv_eq ("bwiseth_prod") ("10.1.0.0/16") 167837696 p0 p1 ps (by decide)
  have hprog : program (d0 :: d1 :: ds) (p0 :: p1 :: ps) =
      (envResources ("bwiseth_dev") ("10.0.0.0/16") 167772160 d0 d1 ++
         envResources ("bwiseth_prod") ("10.1.0.0/16") 167837696 p0 p1,
       .ok (envExports ("bwiseth_dev") ++ envExports ("bwiseth_prod"))) := by
    unfold program
    rw [hd, hp]
  refine ⟨hprog, ?_, ?_, by decide, by decide⟩
  · rw [envResources_lnames, envResources_lnames]
    decide
  · rw [hprog]
    show ((envResources ("bwiseth_dev") ("10.0.0.0/16") 167772160 d0 d1 ++
      envResources ("bwiseth_prod") ("10.1.0.0/16") 167837696 p0 p1).map Res.lname).Nodup
    rw [List.map_append, envResources_lnames, envResources_lnames]
    decide
